import Mathlib

/-!
# Verification of the lp-ai-analyzer structured-output LLM core

A shallow embedding, in Lean 4, of the core of the `lp-ai-analyzer`
repository: the prompt truncation helper (`src/llm/prompts.py`), the schema
registry (`src/llm/schemas.py`), the JSON-safety conversion
(`src/utils/json_tools.py`), both vendor adapters (`src/llm/gemini_client.py`,
`src/llm/openai_client.py`) and the structured pipeline
(`src/llm/pipeline.py`), together with proofs of the documented properties.

Python strings are modelled as `String` (or `List Char` where character
slicing matters), Python dicts as ordered association lists, Python `None` /
exceptions as `Option` / `Except`, and the two external SDK calls as
parameters of the adapter functions.
-/

set_option autoImplicit false

namespace LpAnalyzer

/-! ## Prompt truncation (`src/llm/prompts.py`) -/

/-- `MAX_HTML_CHARS` from `prompts.py`: character budget for markup. -/
def MAX_HTML_CHARS : Nat := 12000

/-- `MAX_CSS_CHARS` from `prompts.py`: character budget for stylesheet text. -/
def MAX_CSS_CHARS : Nat := 8000

/-- The `marker_body` f-string of `_clip_for_prompt`:
`f"{len(text) - max_chars} chars truncated for prompt budget"`. -/
def markerBody (omitted : Nat) : List Char :=
  (toString omitted ++ " chars truncated for prompt budget").data

/-- The comment-style wrapping of the truncation marker in `_clip_for_prompt`. -/
def marker (commentStyle : String) (omitted : Nat) : List Char :=
  if commentStyle = "html" then
    "\n<!-- ".data ++ markerBody omitted ++ " -->\n".data
  else if commentStyle = "css" then
    "\n/* ".data ++ markerBody omitted ++ " */\n".data
  else
    "\n# ".data ++ markerBody omitted ++ "\n".data

/-- Python's negative-index tail slice `text[-k:]`: the last `k` characters,
the whole string when `k = 0` (CPython semantics of `text[-0:]`). -/
def pyTailSlice (k : Nat) (text : List Char) : List Char :=
  if k = 0 then text else text.drop (text.length - k)

/-- `head_keep = int(max_chars * 0.7)` from `_clip_for_prompt`.  The source
computes this in floating point; for both budgets the function is actually
called with (12000 and 8000) the double-precision product `max_chars * 0.7`
rounds to the exact value, so `int()` of it equals `7 * maxChars / 10`. -/
def headKeep (maxChars : Nat) : Nat :=
  7 * maxChars / 10

/-- `_clip_for_prompt` from `prompts.py`: keep the first 70% of the budget and
the trailing remainder, inserting a single marker noting the omitted count. -/
def clipForPrompt (text : List Char) (maxChars : Nat) (commentStyle : String) : List Char :=
  if text.length ≤ maxChars then text
  else
    let hk := headKeep maxChars
    let tk := maxChars - hk
    text.take hk ++ marker commentStyle (text.length - maxChars) ++ pyTailSlice tk text

/-! ## Generation-control hint tables (`src/llm/gemini_client.py`) -/

/-- `VERBOSITY_HINT` from `gemini_client.py` (a Python dict; modelled as an
ordered association list). -/
def VERBOSITY_HINT : List (String × String) :=
  [("low", "**出力は簡潔に、要点のみ。**"),
   ("medium", "適度に詳しく。根拠は簡潔に。"),
   ("high", "詳細に説明。根拠も併記。")]

/-- `EFFORT_HINT` from `gemini_client.py`: note there is no entry for
the `"low"` effort level. -/
def EFFORT_HINT : List (String × String) :=
  [("minimal", "**迅速に結論を出す。内部推論は最小限。**"),
   ("medium", "標準的な推論で効率的に。"),
   ("high", "慎重に多段推論を行う。")]

/-- A Python `KeyError` raised by a dict subscript. -/
inductive PyKeyError where
  | keyError : String → PyKeyError
deriving DecidableEq, Repr

/-- Python dict subscript `d[k]`: the stored value, or a `KeyError`. -/
def dictGet (d : List (String × String)) (k : String) : Except PyKeyError String :=
  match d.lookup k with
  | some v => .ok v
  | none => .error (.keyError k)

/-- The config dict built by `GeminiStructuredAgent._base_config`
(`system_instruction` list plus the fixed low temperature; the float literal
`0.2` is modelled as the rational `2 / 10`). -/
structure GeminiConfig where
  system_instruction : List String
  temperature : Rat
deriving DecidableEq, Repr

/-- `GeminiStructuredAgent._base_config`: subscripts `VERBOSITY_HINT` with the
configured verbosity and `EFFORT_HINT` with the configured effort (in that
order, as the f-strings of the dict literal evaluate), so an absent key
escapes as a `KeyError`. -/
def gemini_base_config (system verbosity effort : String) : Except PyKeyError GeminiConfig := do
  let vh ← dictGet VERBOSITY_HINT verbosity
  let eh ← dictGet EFFORT_HINT effort
  .ok ⟨[system, "出力の粒度:" ++ vh, "思考方針:" ++ eh], 2 / 10⟩

/-- The four effort levels used elsewhere in configuration (spec §6). -/
def effortLevels : List String := ["minimal", "low", "medium", "high"]

/-! ## JSON values

The decoded payloads handed to the schema registry (`json.loads` output) and
the JSON-Schema-like descriptors transformed by `_strip_unsupported_keys` are
modelled by one inductive of JSON values; objects are ordered association
lists, mirroring Python dict insertion order. -/

inductive Json where
  | null : Json
  | bool : Bool → Json
  | num : Int → Json
  | str : String → Json
  | arr : List Json → Json
  | obj : List (String × Json) → Json
deriving Repr

/-! ## Schema registry (`src/llm/schemas.py`)

The pydantic models.  All of them inherit `StrictBaseModel`
(`extra="forbid"`), so their decoders reject any undeclared field. -/

/-- `IssueSeverity` from `schemas.py`. -/
inductive IssueSeverity where
  | low
  | medium
  | high
deriving DecidableEq, Repr

/-- `Issue` from `schemas.py`. -/
structure Issue where
  title : String
  detail : String
  evidence : Option String
  severity : IssueSeverity
deriving DecidableEq, Repr

/-- `Improvement` from `schemas.py`. -/
structure Improvement where
  title : String
  rationale : String
  targets_issue : Option String
deriving DecidableEq, Repr

/-- `VariantOption` from `schemas.py`. -/
structure VariantOption where
  version : String
  label : String
  search : String
  replace : String
deriving DecidableEq, Repr

/-- `ImprovementPoint` from `schemas.py`. -/
structure ImprovementPoint where
  point_id : String
  point_name : String
  description : String
  file_path : String
  variants : List VariantOption
deriving DecidableEq, Repr

/-- `AnalysisResult` from `schemas.py`. -/
structure AnalysisResult where
  summary : Option String
  issues : List Issue
  improvements : List Improvement
deriving DecidableEq, Repr

/-- `DiffResult` from `schemas.py`. -/
structure DiffResult where
  improvement_points : List ImprovementPoint
deriving DecidableEq, Repr

/-- The kind of a pydantic validation error. -/
inductive DecodeErrKind where
  | extraForbidden
  | missingField
  | wrongType
deriving DecidableEq, Repr

/-- A pydantic `ValidationError`, reduced to the offending field path (the
`loc` of the first reported error) and its kind. -/
structure DecodeErr where
  path : List String
  kind : DecodeErrKind
deriving DecidableEq, Repr

/-- The first key of `kvs` that is not among the declared fields: the extra
field that `extra="forbid"` validation reports. -/
def extraKey (declared : List String) (kvs : List (String × Json)) : Option String :=
  (kvs.find? (fun kv => !(declared.contains kv.1))).map (·.1)

/-- Decode a required string field. -/
def reqStr (kvs : List (String × Json)) (k : String) : Except DecodeErr String :=
  match kvs.lookup k with
  | some (.str s) => .ok s
  | some _ => .error ⟨[k], .wrongType⟩
  | none => .error ⟨[k], .missingField⟩

/-- Decode an `Optional[str] = None` field (absent or `null` decode to
`none`). -/
def optStr (kvs : List (String × Json)) (k : String) : Except DecodeErr (Option String) :=
  match kvs.lookup k with
  | some (.str s) => .ok (some s)
  | some .null => .ok none
  | some _ => .error ⟨[k], .wrongType⟩
  | none => .ok none

/-- Decode the `severity` field of `Issue`: absent defaults to `medium`,
otherwise one of the three enum value strings. -/
def decodeSeverity (kvs : List (String × Json)) : Except DecodeErr IssueSeverity :=
  match kvs.lookup "severity" with
  | none => .ok .medium
  | some (.str "low") => .ok .low
  | some (.str "medium") => .ok .medium
  | some (.str "high") => .ok .high
  | some _ => .error ⟨["severity"], .wrongType⟩

/-- The declared field set of `Issue`. -/
def issueFields : List String := ["title", "detail", "evidence", "severity"]

/-- The declared field set of `Improvement`. -/
def improvementFields : List String := ["title", "rationale", "targets_issue"]

/-- The declared field set of `VariantOption`. -/
def variantOptionFields : List String := ["version", "label", "search", "replace"]

/-- The declared field set of `ImprovementPoint`. -/
def improvementPointFields : List String :=
  ["point_id", "point_name", "description", "file_path", "variants"]

/-- The declared field set of `AnalysisResult`. -/
def analysisResultFields : List String := ["summary", "issues", "improvements"]

/-- The declared field set of `DiffResult`. -/
def diffResultFields : List String := ["improvement_points"]

/-- `Issue.model_validate`: strict decoding of an `Issue` payload. -/
def decodeIssue : Json → Except DecodeErr Issue
  | .obj kvs =>
    match extraKey issueFields kvs with
    | some k => .error ⟨[k], .extraForbidden⟩
    | none => do
      let t ← reqStr kvs "title"
      let d ← reqStr kvs "detail"
      let e ← optStr kvs "evidence"
      let s ← decodeSeverity kvs
      .ok ⟨t, d, e, s⟩
  | _ => .error ⟨[], .wrongType⟩

/-- `Improvement.model_validate`. -/
def decodeImprovement : Json → Except DecodeErr Improvement
  | .obj kvs =>
    match extraKey improvementFields kvs with
    | some k => .error ⟨[k], .extraForbidden⟩
    | none => do
      let t ← reqStr kvs "title"
      let r ← reqStr kvs "rationale"
      let ti ← optStr kvs "targets_issue"
      .ok ⟨t, r, ti⟩
  | _ => .error ⟨[], .wrongType⟩

/-- `VariantOption.model_validate`. -/
def decodeVariantOption : Json → Except DecodeErr VariantOption
  | .obj kvs =>
    match extraKey variantOptionFields kvs with
    | some k => .error ⟨[k], .extraForbidden⟩
    | none => do
      let v ← reqStr kvs "version"
      let l ← reqStr kvs "label"
      let s ← reqStr kvs "search"
      let r ← reqStr kvs "replace"
      .ok ⟨v, l, s, r⟩
  | _ => .error ⟨[], .wrongType⟩

/-- Decode every element of a JSON array with the given element decoder. -/
def decodeElems {α : Type} (dec : Json → Except DecodeErr α) :
    List Json → Except DecodeErr (List α)
  | [] => .ok []
  | j :: rest => do
    let a ← dec j
    let as ← decodeElems dec rest
    .ok (a :: as)

/-- Decode a required list field with the given element decoder. -/
def reqList {α : Type} (dec : Json → Except DecodeErr α)
    (kvs : List (String × Json)) (k : String) : Except DecodeErr (List α) :=
  match kvs.lookup k with
  | some (.arr items) => decodeElems dec items
  | some _ => .error ⟨[k], .wrongType⟩
  | none => .error ⟨[k], .missingField⟩

/-- `ImprovementPoint.model_validate`. -/
def decodeImprovementPoint : Json → Except DecodeErr ImprovementPoint
  | .obj kvs =>
    match extraKey improvementPointFields kvs with
    | some k => .error ⟨[k], .extraForbidden⟩
    | none => do
      let pid ← reqStr kvs "point_id"
      let pn ← reqStr kvs "point_name"
      let d ← reqStr kvs "description"
      let fp ← reqStr kvs "file_path"
      let vs ← reqList decodeVariantOption kvs "variants"
      .ok ⟨pid, pn, d, fp, vs⟩
  | _ => .error ⟨[], .wrongType⟩

/-- `AnalysisResult.model_validate`. -/
def decodeAnalysisResult : Json → Except DecodeErr AnalysisResult
  | .obj kvs =>
    match extraKey analysisResultFields kvs with
    | some k => .error ⟨[k], .extraForbidden⟩
    | none => do
      let s ← optStr kvs "summary"
      let is ← reqList decodeIssue kvs "issues"
      let ims ← reqList decodeImprovement kvs "improvements"
      .ok ⟨s, is, ims⟩
  | _ => .error ⟨[], .wrongType⟩

/-- `DiffResult.model_validate`. -/
def decodeDiffResult : Json → Except DecodeErr DiffResult
  | .obj kvs =>
    match extraKey diffResultFields kvs with
    | some k => .error ⟨[k], .extraForbidden⟩
    | none => do
      let ps ← reqList decodeImprovementPoint kvs "improvement_points"
      .ok ⟨ps⟩
  | _ => .error ⟨[], .wrongType⟩

/-- Encode an optional string as pydantic `model_dump` does (`None` → JSON
null). -/
def encodeOptStr : Option String → Json
  | none => .null
  | some s => .str s

/-- The value string of an `IssueSeverity` member. -/
def encodeSeverity : IssueSeverity → Json
  | .low => .str "low"
  | .medium => .str "medium"
  | .high => .str "high"

/-- `Issue.model_dump` (all declared fields, in declaration order). -/
def encodeIssue (x : Issue) : Json :=
  .obj [("title", .str x.title), ("detail", .str x.detail),
        ("evidence", encodeOptStr x.evidence), ("severity", encodeSeverity x.severity)]

/-- `Improvement.model_dump`. -/
def encodeImprovement (x : Improvement) : Json :=
  .obj [("title", .str x.title), ("rationale", .str x.rationale),
        ("targets_issue", encodeOptStr x.targets_issue)]

/-- `VariantOption.model_dump`. -/
def encodeVariantOption (x : VariantOption) : Json :=
  .obj [("version", .str x.version), ("label", .str x.label),
        ("search", .str x.search), ("replace", .str x.replace)]

/-- `ImprovementPoint.model_dump`. -/
def encodeImprovementPoint (x : ImprovementPoint) : Json :=
  .obj [("point_id", .str x.point_id), ("point_name", .str x.point_name),
        ("description", .str x.description), ("file_path", .str x.file_path),
        ("variants", .arr (x.variants.map encodeVariantOption))]

/-- `AnalysisResult.model_dump`. -/
def encodeAnalysisResult (x : AnalysisResult) : Json :=
  .obj [("summary", encodeOptStr x.summary),
        ("issues", .arr (x.issues.map encodeIssue)),
        ("improvements", .arr (x.improvements.map encodeImprovement))]

/-- `DiffResult.model_dump`. -/
def encodeDiffResult (x : DiffResult) : Json :=
  .obj [("improvement_points", .arr (x.improvement_points.map encodeImprovementPoint))]

/-! ## Vendor schema descriptor (`_strip_unsupported_keys` in `schemas.py`) -/

/-- The keys removed by `_strip_unsupported_keys` (the literal set in the
source). -/
def geminiUnsupportedKeys : List String :=
  ["additionalProperties", "unevaluatedProperties", "patternProperties"]

/-- `cleaned.get("type") == "object"`. -/
def isObjectTyped (kvs : List (String × Json)) : Bool :=
  match kvs.lookup "type" with
  | some (.str s) => s == "object"
  | _ => false

/-- Python `k in d` on a dict. -/
def hasKey (kvs : List (String × Json)) (k : String) : Bool :=
  (kvs.lookup k).isSome

/-- `list(cleaned["properties"].keys())`.  `none` models the
`AttributeError` the source raises when the value stored at `"properties"`
is not a dict. -/
def propertyNames (kvs : List (String × Json)) : Option (List String) :=
  match kvs.lookup "properties" with
  | some (.obj props) => some (props.map (·.1))
  | _ => none

/-- The tail of the dict branch of `_strip_unsupported_keys`: append a
`propertyOrdering` entry listing the property names when the node is
object-typed with properties and no ordering yet. -/
def injectOrdering (cleaned : List (String × Json)) : Option Json :=
  if isObjectTyped cleaned && hasKey cleaned "properties" &&
      !(hasKey cleaned "propertyOrdering") then do
    let names ← propertyNames cleaned
    some (.obj (cleaned ++ [("propertyOrdering", .arr (names.map .str))]))
  else
    some (.obj cleaned)

mutual

/-- `_strip_unsupported_keys` from `schemas.py`.  `none` models the one
exception the source can raise (`AttributeError` via `propertyNames`). -/
def stripUnsupported : Json → Option Json
  | .null => some .null
  | .bool b => some (.bool b)
  | .num n => some (.num n)
  | .str s => some (.str s)
  | .arr xs => do
      let ys ← stripElems xs
      some (.arr ys)
  | .obj kvs => do
      let cleaned ← stripKvs kvs
      injectOrdering cleaned

/-- The list branch of `_strip_unsupported_keys`. -/
def stripElems : List Json → Option (List Json)
  | [] => some []
  | x :: xs => do
      let y ← stripUnsupported x
      let ys ← stripElems xs
      some (y :: ys)

/-- The dict-items loop of `_strip_unsupported_keys`: skip unsupported keys,
recurse into the remaining values, preserving order. -/
def stripKvs : List (String × Json) → Option (List (String × Json))
  | [] => some []
  | (k, v) :: rest =>
      if geminiUnsupportedKeys.contains k then stripKvs rest
      else do
        let v' ← stripUnsupported v
        let rest' ← stripKvs rest
        some ((k, v') :: rest')

end

mutual

/-- No unsupported key occurs at any depth of the value. -/
def noBanned : Json → Bool
  | .arr xs => noBannedElems xs
  | .obj kvs => noBannedKvs kvs
  | _ => true

def noBannedElems : List Json → Bool
  | [] => true
  | x :: xs => noBanned x && noBannedElems xs

def noBannedKvs : List (String × Json) → Bool
  | [] => true
  | (k, v) :: rest =>
      !(geminiUnsupportedKeys.contains k) && noBanned v && noBannedKvs rest

end

mutual

/-- Every object-typed node (a dict with `type == "object"` and a
`properties` key) at any depth carries a `propertyOrdering` key. -/
def orderingOk : Json → Bool
  | .arr xs => orderingOkElems xs
  | .obj kvs =>
      (!(isObjectTyped kvs && hasKey kvs "properties") ||
        hasKey kvs "propertyOrdering") && orderingOkKvs kvs
  | _ => true

def orderingOkElems : List Json → Bool
  | [] => true
  | x :: xs => orderingOk x && orderingOkElems xs

def orderingOkKvs : List (String × Json) → Bool
  | [] => true
  | (_, v) :: rest => orderingOk v && orderingOkKvs rest

end

/-! ## JSON-safety conversion (`src/utils/json_tools.py`) -/

/-- The universe of values handed to `make_json_safe`: JSON primitives,
nested mappings and sequences (lists, tuples, sets), and structured objects
whose first usable dict-like extraction method
(`model_dump`/`dict`/`to_dict`/`as_dict`) returns the carried value.
Mapping keys are modelled as strings (`str(k)` in the source is the identity
on them). -/
inductive PyVal where
  | pnone : PyVal
  | pbool : Bool → PyVal
  | pint : Int → PyVal
  | pstr : String → PyVal
  | plist : List PyVal → PyVal
  | ptuple : List PyVal → PyVal
  | pset : List PyVal → PyVal
  | pdict : List (String × PyVal) → PyVal
  | pobj : PyVal → PyVal
deriving Repr

mutual

/-- `make_json_safe` from `json_tools.py`: primitives unchanged, sequences
to lists, mappings to mappings, structured objects unwrapped through their
extraction method, all recursively. -/
def make_json_safe : PyVal → PyVal
  | .pnone => .pnone
  | .pbool b => .pbool b
  | .pint n => .pint n
  | .pstr s => .pstr s
  | .plist xs => .plist (safeElems xs)
  | .ptuple xs => .plist (safeElems xs)
  | .pset xs => .plist (safeElems xs)
  | .pdict kvs => .pdict (safeEntries kvs)
  | .pobj d => make_json_safe d

/-- The sequence branch of `make_json_safe`. -/
def safeElems : List PyVal → List PyVal
  | [] => []
  | x :: xs => make_json_safe x :: safeElems xs

/-- The mapping branch of `make_json_safe`. -/
def safeEntries : List (String × PyVal) → List (String × PyVal)
  | [] => []
  | (k, v) :: rest => (k, make_json_safe v) :: safeEntries rest

end

/-! ## Failure surface (`src/llm/exceptions.py`)

The source reports every structured-call failure through the single
exception class `StructuredCallError`; the spec's three failure kinds
(`CallFailed` / `MissingPayload` / `ValidationFailed`) are distinguished in
the source only by the raise site and message text, so the embedding
records the raise site's classification in a `kind` field. -/

/-- The spec's failure taxonomy (§7). -/
inductive ErrKind where
  | CallFailed
  | MissingPayload
  | ValidationFailed
deriving DecidableEq, Repr

/-- `StructuredCallError` from `exceptions.py`, plus the raise-site
classification. -/
structure StructuredCallError where
  kind : ErrKind
  message : String
  raw_text : Option String
  parsed : Option Json
  response_debug : Option PyVal

/-- What an adapter `_call` can raise: the reported `StructuredCallError`,
or any other (unclassified, adapter-specific) Python exception. -/
inductive AdapterRaise where
  | structuredErr : StructuredCallError → AdapterRaise
  | unclassified : String → AdapterRaise

/-! ## Vendor adapter A (`src/llm/gemini_client.py`) -/

/-- One element of `response.candidates` as read by `_call` (only the
`text` and `finish_reason` attributes are consulted; `finish_reason` is
modelled after `str()` conversion). -/
structure GeminiCandidate where
  text : Option String
  finish_reason : Option String

/-- The Gemini SDK response as read by `_call`: `candidates` (absent or
`None` collapses to the empty list via `getattr(..., []) or []`), the
top-level `text` attribute, and `usage_metadata`. -/
structure GeminiResponse where
  candidates : List GeminiCandidate
  text : Option String
  usage_metadata : PyVal

/-- Python truthiness of an optional string (`if raw_text:`). -/
def pyTruthyStr : Option String → Bool
  | some s => s ≠ ""
  | none => false

/-- One iteration of the candidate loop of `_call` (lines 90-101): append a
truthy candidate text, fix `raw_text` at the first truthy text, fix
`finish_reason` at the first non-`None` value. -/
def stepCandidate (acc : List String × Option String × Option String)
    (c : GeminiCandidate) : List String × Option String × Option String :=
  let texts := acc.1
  let raw := acc.2.1
  let fr := acc.2.2
  let texts' := if pyTruthyStr c.text then texts ++ [c.text.getD ""] else texts
  let raw' := if pyTruthyStr c.text then (if raw = none then c.text else raw) else raw
  let fr' := match fr with
    | some r => some r
    | none => c.finish_reason
  (texts', raw', fr')

/-- The whole candidate loop of `_call`, producing
`(candidate_texts, raw_text-from-candidates, finish_reason)`. -/
def collectCandidates (cs : List GeminiCandidate) :
    List String × Option String × Option String :=
  cs.foldl stepCandidate ([], none, none)

/-- `candidate_texts` after the loop. -/
def geminiCandidateTexts (r : GeminiResponse) : List String :=
  (collectCandidates r.candidates).1

/-- `finish_reason` after the loop. -/
def geminiFinishReason (r : GeminiResponse) : Option String :=
  (collectCandidates r.candidates).2.2

/-- `raw_text` after the loop and the `response.text` fallback
(lines 104-105). -/
def geminiRawText (r : GeminiResponse) : Option String :=
  match (collectCandidates r.candidates).2.1 with
  | some t => some t
  | none => r.text

/-- `parsed_dict` after the guarded `json.loads` (lines 112-126): parse only
truthy raw text; a decode failure (modelled by the parser returning `none`)
leaves the payload unset instead of raising. -/
def geminiParsed (jsonLoads : String → Option Json) (r : GeminiResponse) : Option Json :=
  match geminiRawText r with
  | some t => if t ≠ "" then jsonLoads t else none
  | none => none

/-- The Japanese follow-up appended to the `MissingPayload` message for a
truncation or safety finish-reason (lines 139-143). -/
def reasonNote (r : String) : String :=
  if r.toUpper = "MAX_TOKENS" ∨ r.toUpper = "MAXTOKENS" then
    " - 出力が最大トークン数に達しました。max_output_tokensを増やすか、プロンプトを短くしてください。"
  else if r.toUpper = "SAFETY" then
    " - 安全性フィルターによってブロックされました。"
  else ""

/-- The message of the Gemini `MissingPayload` raise (lines 136-143). -/
def geminiMissingMsg (stage : String) (fr : Option String) : String :=
  let base := "Gemini structured output missing parsed payload for " ++ stage
  match fr with
  | some r =>
      if r ≠ "" then base ++ " (finish_reason: " ++ r ++ ")" ++ reasonNote r
      else base
  | none => base

/-- The `response_debug` dict of the Gemini `MissingPayload` raise
(lines 148-152). -/
def geminiMissingDebug (texts : List String) (usage : PyVal) (fr : Option String) : PyVal :=
  .pdict [("candidates", make_json_safe (.plist (texts.map .pstr))),
          ("usage", make_json_safe usage),
          ("finish_reason", match fr with | some r => .pstr r | none => .pnone)]

/-- The `response_debug` dict of the Gemini `ValidationFailed` raise
(lines 162-165). -/
def geminiValidationDebug (texts : List String) (usage : PyVal) : PyVal :=
  .pdict [("candidates", make_json_safe (.plist (texts.map .pstr))),
          ("usage", make_json_safe usage)]

/-- A rendering of a pydantic validation error, standing in for `str(exc)`
in the `ValidationFailed` message. -/
def decodeErrText (e : DecodeErr) : String :=
  String.intercalate "." e.path

/-- The success debug bundle of the Gemini `_call` (lines 168-173). -/
structure GeminiDebug where
  raw_text : Option String
  parsed_payload : Json
  candidates : PyVal
  usage : PyVal

/-- `GeminiStructuredAgent._call`, generic over the target schema: the
schema's `model_validate` is the `validate` parameter (instantiated with the
registry decoders above) and `json.loads` is the `jsonLoads` parameter.  The
transport step (`client.models.generate_content`) is summarised by its
outcome `callResult` (`.error exc` = the call raised `exc`). -/
def geminiCall {α : Type} (jsonLoads : String → Option Json)
    (validate : Json → Except DecodeErr α) (schemaName stage : String)
    (callResult : Except String GeminiResponse) :
    Except AdapterRaise (α × GeminiDebug) :=
  match callResult with
  | .error exc =>
      .error (.structuredErr
        ⟨.CallFailed, "Gemini API call failed at " ++ stage ++ ": " ++ exc,
         none, none, none⟩)
  | .ok response =>
      let texts := geminiCandidateTexts response
      let fr := geminiFinishReason response
      let raw := geminiRawText response
      match geminiParsed jsonLoads response with
      | none =>
          .error (.structuredErr
            ⟨.MissingPayload, geminiMissingMsg stage fr, raw, none,
             some (geminiMissingDebug texts response.usage_metadata fr)⟩)
      | some parsed =>
          match validate parsed with
          | .error verr =>
              .error (.structuredErr
                ⟨.ValidationFailed,
                 "Gemini structured output failed validation for " ++ schemaName ++
                   ": " ++ decodeErrText verr,
                 raw, some parsed,
                 some (geminiValidationDebug texts response.usage_metadata)⟩)
          | .ok validated =>
              .ok (validated,
                ⟨raw, parsed,
                 make_json_safe (.plist (texts.map .pstr)),
                 make_json_safe response.usage_metadata⟩)

/-! ## Vendor adapter B (`src/llm/openai_client.py`) -/

/-- The first choice's message as read by `_call`: the SDK-parsed typed
object (or nothing) and the raw content. -/
structure OpenAIMessage (α : Type) where
  parsed : Option α
  content : Option String

/-- One element of `completion.choices`. -/
structure OpenAIChoice (α : Type) where
  message : OpenAIMessage α

/-- The SDK completion as read by `_call`: the choices and the
`model_dump()` payload used for `response_debug`. -/
structure OpenAICompletion (α : Type) where
  choices : List (OpenAIChoice α)
  dump : PyVal

/-- The success debug bundle of the OpenAI `_call` (lines 84-88). -/
structure OpenAIDebug where
  raw_text : Option String
  parsed_payload : PyVal
  response : PyVal

/-- `OpenAIStructuredAgent._call`: the transport-and-SDK-parse step
(`client.beta.chat.completions.parse`, inside the `try`) is summarised by
its outcome `callResult`; `dumpParsed` models `parsed.model_dump()`.
`completion.choices[0]` on an empty choices list raises a Python
`IndexError`, which is not a `StructuredCallError`. -/
def openaiCall {α : Type} (dumpParsed : α → PyVal) (stage : String)
    (callResult : Except String (OpenAICompletion α)) :
    Except AdapterRaise (α × OpenAIDebug) :=
  match callResult with
  | .error exc =>
      .error (.structuredErr
        ⟨.CallFailed, "OpenAI API call failed at " ++ stage ++ ": " ++ exc,
         none, none, none⟩)
  | .ok completion =>
      match completion.choices with
      | [] => .error (.unclassified "IndexError: list index out of range")
      | choice :: _ =>
          let raw := choice.message.content
          let debug := make_json_safe completion.dump
          match choice.message.parsed with
          | none =>
              .error (.structuredErr
                ⟨.MissingPayload,
                 "OpenAI structured output missing parsed payload for " ++ stage,
                 raw, none, some debug⟩)
          | some parsed =>
              .ok (parsed, ⟨raw, make_json_safe (dumpParsed parsed), debug⟩)

/-! ## Structured pipeline (`src/llm/pipeline.py`) and prompts -/

/-- `build_system_prompt` from `prompts.py`. -/
def build_system_prompt : String :=
  "あなたはUI/UXデザインに長けたシニアデザイナー兼フロントエンド実装者です。" ++
  "LPのデザイン・ビジュアルを視覚（画像）とコード（HTML/CSS）両面から監査し、" ++
  "**見た目の改善点**を洗い出してください。\n\n" ++
  "【重要な制約】\n" ++
  "- 見た目に関係ないもの（SEO、アクセシビリティ、パフォーマンス）は対象外\n" ++
  "- デザイン・レイアウト・色・タイポグラフィなど視覚的改善に焦点\n" ++
  "- 回答は簡潔に、要点を絞って出力。長い推論は不要。"

/-- `RULES` from `prompts.py`. -/
def RULES : String :=
  "\n## 優先度: 高（見た目の改善）\n" ++
  "- **タイポグラフィ**: フォントサイズ、行間、文字間隔、ヒエラルキー\n" ++
  "- **色・コントラスト**: ブランドカラー統一、視認性、色のバランス\n" ++
  "- **レイアウト**: 余白（padding/margin）、配置、グリッド、視線誘導\n" ++
  "- **ビジュアル要素**: 画像サイズ、アイコン、ボタンデザイン、装飾\n" ++
  "- **空間設計**: セクション間隔、コンテンツ密度、ホワイトスペース\n" ++
  "- **視覚的ヒエラルキー**: 重要度の視覚化、CTAの目立ちやすさ\n\n" ++
  "## 対象外（見た目に関係ない）\n" ++
  "- ❌ SEO（meta tags、構造化データ等）\n" ++
  "- ❌ アクセシビリティ（aria属性、alt属性等）\n" ++
  "- ❌ パフォーマンス（読み込み速度、画像最適化等）\n" ++
  "- ❌ コンテンツ文言（テキスト内容の大幅変更）\n\n" ++
  "**重要**: 見た目の改善のみに焦点を当て、視覚的なインパクトを最大化してください。\n"

/-- `_clip_for_prompt` lifted to `String` (the pipeline-facing form). -/
def clipStr (text : String) (maxChars : Nat) (commentStyle : String) : String :=
  String.mk (clipForPrompt text.data maxChars commentStyle)

/-- `build_analysis_prompt` from `prompts.py`. -/
def build_analysis_prompt (html css_bundle extra_instruction : String) : String :=
  let extra := if extra_instruction ≠ "" then "- 追加要望: " ++ extra_instruction ++ "\n" else ""
  let html_snippet := clipStr html MAX_HTML_CHARS "html"
  let css_snippet := clipStr css_bundle MAX_CSS_CHARS "css"
  "\n# タスク\n" ++
  "LPのデザイン・ビジュアルを監査し、**見た目の問題**を抽出し、改善案を提案します。\n" ++
  "改善案は視覚的なインパクトが大きいものを優先してください。\n" ++
  "**指定されたJSON形式で簡潔に出力してください。長い説明や推論プロセスは不要です。**\n\n" ++
  "**重要**: \n" ++
  "- 見た目に関係ないもの（SEO、アクセシビリティ、パフォーマンス）は分析対象外\n" ++
  "- デザイン・レイアウト・色・タイポグラフィなど視覚的な改善に焦点を当てる\n" ++
  extra ++
  "# デザインルールカード\n" ++ RULES ++ "\n\n" ++
  "# 参照コード\n## index.html\n```html\n" ++ html_snippet ++ "\n```\n\n" ++
  "## styles_external_bundle.css\n```css\n" ++ css_snippet ++ "\n```\n"

/-- `custom_system_prompt or build_system_prompt()` (line 36 of
`pipeline.py`): Python `or` falls through on falsy values, so both `None`
and the empty string pick the default. -/
def resolveSystemPrompt (custom_system_prompt : Option String) : String :=
  match custom_system_prompt with
  | some s => if s ≠ "" then s else build_system_prompt
  | none => build_system_prompt

/-- The artifacts dict returned by `run_structured_pipeline`
(lines 52-57). -/
structure PipelineArtifacts where
  system_prompt : String
  analysis_prompt : String
  analysis_raw : Json
  analysis_debug : PyVal
deriving Repr

/-- `run_structured_pipeline` from `pipeline.py`.  The two adapters'
`analyze` operations (whose bodies issue network calls) are the oracle
parameters `geminiAnalyze` / `openaiAnalyze`, taking the constructor
arguments (model, verbosity, effort), the prompts and the image payload,
and returning `(analysis, analysis_debug)`. -/
def run_structured_pipeline
    (geminiAnalyze openaiAnalyze :
      String → String → String → String → String → String → AnalysisResult × PyVal)
    (vendor model html css_bundle extra_instruction image_bytes image_b64
      verbosity effort : String)
    (custom_system_prompt : Option String) :
    AnalysisResult × PipelineArtifacts :=
  let system_prompt := resolveSystemPrompt custom_system_prompt
  let analysis_prompt := build_analysis_prompt html css_bundle extra_instruction
  let callPair :=
    if vendor = "Google Gemini" then
      geminiAnalyze model verbosity effort system_prompt analysis_prompt image_bytes
    else
      openaiAnalyze model verbosity effort system_prompt analysis_prompt image_b64
  (callPair.1,
   ⟨system_prompt, analysis_prompt, encodeAnalysisResult callPair.1,
    make_json_safe callPair.2⟩)

/-! ## Helper lemmas -/

theorem clip_core (text : List Char) (B : Nat) (style : String)
    (hL : B < text.length) (hhk : headKeep B ≤ B) (htk : B - headKeep B ≠ 0) :
    (clipForPrompt text B style).length = B + (marker style (text.length - B)).length ∧
    (clipForPrompt text B style).take (headKeep B) = text.take (headKeep B) ∧
    ((clipForPrompt text B style).drop (headKeep B)).take
        (marker style (text.length - B)).length = marker style (text.length - B) ∧
    (clipForPrompt text B style).drop
        ((clipForPrompt text B style).length - (B - headKeep B)) =
      text.drop (text.length - (B - headKeep B)) := by
  have hnotle : ¬ text.length ≤ B := not_le.mpr hL
  have hout : clipForPrompt text B style =
      text.take (headKeep B) ++ marker style (text.length - B) ++
        text.drop (text.length - (B - headKeep B)) := by
    simp only [clipForPrompt, pyTailSlice]
    rw [if_neg hnotle, if_neg htk]
  have hklen : headKeep B ≤ text.length := le_trans hhk (le_of_lt hL)
  have hA : (text.take (headKeep B)).length = headKeep B := by
    rw [List.length_take, min_eq_left hklen]
  have htklen : B - headKeep B ≤ text.length := le_trans (Nat.sub_le _ _) (le_of_lt hL)
  have hT : (text.drop (text.length - (B - headKeep B))).length = B - headKeep B := by
    rw [List.length_drop, Nat.sub_sub_self htklen]
  have hlen : (clipForPrompt text B style).length =
      B + (marker style (text.length - B)).length := by
    rw [hout]
    simp only [List.length_append, hA, hT]
    omega
  have hAdrop : (text.take (headKeep B)).drop (headKeep B) = [] := by
    apply List.drop_eq_nil_of_le
    rw [hA]
  refine ⟨hlen, ?_, ?_, ?_⟩
  · rw [hout, List.append_assoc, List.take_append_eq_append_take, hA,
      Nat.sub_self, List.take_zero, List.append_nil, List.take_take,
      min_self]
  · rw [hout, List.append_assoc, List.drop_append_eq_append_drop, hAdrop, hA,
      Nat.sub_self, List.drop_zero, List.nil_append,
      List.take_append_eq_append_take, Nat.sub_self, List.take_zero,
      List.append_nil, List.take_length]
  · rw [hlen, hout]
    have h1 : B + (marker style (text.length - B)).length - (B - headKeep B) =
        headKeep B + (marker style (text.length - B)).length := by omega
    have hAdrop2 : (text.take (headKeep B)).drop
        (headKeep B + (marker style (text.length - B)).length) = [] := by
      apply List.drop_eq_nil_of_le
      rw [hA]
      omega
    have h2 : headKeep B + (marker style (text.length - B)).length -
        (text.take (headKeep B)).length = (marker style (text.length - B)).length := by
      rw [hA]; omega
    rw [h1, List.append_assoc, List.drop_append_eq_append_drop, hAdrop2,
      List.nil_append, h2, List.drop_append_eq_append_drop, Nat.sub_self,
      List.drop_length, List.drop_zero, List.nil_append]

theorem extraKey_exists (F : List String) (kvs : List (String × Json))
    (h : ∃ kv ∈ kvs, kv.1 ∉ F) : (extraKey F kvs).isSome := by
  obtain ⟨kv, hmem, hk⟩ := h
  have hfind : (kvs.find? fun kv => !(F.contains kv.1)).isSome := by
    rw [List.find?_isSome]
    exact ⟨kv, hmem, by simp [hk]⟩
  obtain ⟨kv', hkv'⟩ := Option.isSome_iff_exists.mp hfind
  rw [extraKey, hkv']
  rfl

theorem extraKey_sound (F : List String) (kvs : List (String × Json)) (k : String)
    (h : extraKey F kvs = some k) : k ∉ F ∧ k ∈ kvs.map Prod.fst := by
  rw [extraKey] at h
  obtain ⟨kv, hfind, hfst⟩ := Option.map_eq_some'.mp h
  have hp := List.find?_some hfind
  have hmem := List.mem_of_find?_eq_some hfind
  subst hfst
  refine ⟨fun hcontra => ?_, List.mem_map_of_mem _ hmem⟩
  simp [hcontra] at hp

theorem decodeIssue_extra (kvs : List (String × Json)) (k : String)
    (h : extraKey issueFields kvs = some k) :
    decodeIssue (.obj kvs) = .error ⟨[k], .extraForbidden⟩ := by
  simp only [decodeIssue, h]

theorem decodeImprovement_extra (kvs : List (String × Json)) (k : String)
    (h : extraKey improvementFields kvs = some k) :
    decodeImprovement (.obj kvs) = .error ⟨[k], .extraForbidden⟩ := by
  simp only [decodeImprovement, h]

theorem decodeVariantOption_extra (kvs : List (String × Json)) (k : String)
    (h : extraKey variantOptionFields kvs = some k) :
    decodeVariantOption (.obj kvs) = .error ⟨[k], .extraForbidden⟩ := by
  simp only [decodeVariantOption, h]

theorem decodeImprovementPoint_extra (kvs : List (String × Json)) (k : String)
    (h : extraKey improvementPointFields kvs = some k) :
    decodeImprovementPoint (.obj kvs) = .error ⟨[k], .extraForbidden⟩ := by
  simp only [decodeImprovementPoint, h]

theorem decodeAnalysisResult_extra (kvs : List (String × Json)) (k : String)
    (h : extraKey analysisResultFields kvs = some k) :
    decodeAnalysisResult (.obj kvs) = .error ⟨[k], .extraForbidden⟩ := by
  simp only [decodeAnalysisResult, h]

theorem decodeDiffResult_extra (kvs : List (String × Json)) (k : String)
    (h : extraKey diffResultFields kvs = some k) :
    decodeDiffResult (.obj kvs) = .error ⟨[k], .extraForbidden⟩ := by
  simp only [decodeDiffResult, h]

theorem decodeIssue_encode (x : Issue) : decodeIssue (encodeIssue x) = .ok x := by
  obtain ⟨t, d, e, s⟩ := x
  cases e <;> cases s <;> rfl

theorem decodeImprovement_encode (x : Improvement) :
    decodeImprovement (encodeImprovement x) = .ok x := by
  obtain ⟨t, r, ti⟩ := x
  cases ti <;> rfl

theorem decodeVariantOption_encode (x : VariantOption) :
    decodeVariantOption (encodeVariantOption x) = .ok x := by
  obtain ⟨v, l, s, r⟩ := x
  rfl

theorem decodeElems_map {α : Type} (dec : Json → Except DecodeErr α) (enc : α → Json)
    (h : ∀ x, dec (enc x) = .ok x) :
    ∀ xs : List α, decodeElems dec (xs.map enc) = .ok xs
  | [] => rfl
  | x :: xs => by
      simp only [List.map_cons, decodeElems, h x, decodeElems_map dec enc h xs]
      rfl

theorem decodeImprovementPoint_encode (x : ImprovementPoint) :
    decodeImprovementPoint (encodeImprovementPoint x) = .ok x := by
  obtain ⟨pid, pn, d, fp, vs⟩ := x
  have key : decodeImprovementPoint (encodeImprovementPoint ⟨pid, pn, d, fp, vs⟩) =
      Except.bind (decodeElems decodeVariantOption (vs.map encodeVariantOption))
        (fun vs' => .ok ⟨pid, pn, d, fp, vs'⟩) := rfl
  rw [key, decodeElems_map _ _ decodeVariantOption_encode vs]
  rfl

theorem decodeAnalysisResult_encode (x : AnalysisResult) :
    decodeAnalysisResult (encodeAnalysisResult x) = .ok x := by
  obtain ⟨s, is, ims⟩ := x
  cases s with
  | none =>
      have key : decodeAnalysisResult (encodeAnalysisResult ⟨none, is, ims⟩) =
          Except.bind (decodeElems decodeIssue (is.map encodeIssue)) (fun is' =>
            Except.bind (decodeElems decodeImprovement (ims.map encodeImprovement))
              (fun ims' => .ok ⟨none, is', ims'⟩)) := rfl
      rw [key, decodeElems_map _ _ decodeIssue_encode is,
        decodeElems_map _ _ decodeImprovement_encode ims]
      rfl
  | some str =>
      have key : decodeAnalysisResult (encodeAnalysisResult ⟨some str, is, ims⟩) =
          Except.bind (decodeElems decodeIssue (is.map encodeIssue)) (fun is' =>
            Except.bind (decodeElems decodeImprovement (ims.map encodeImprovement))
              (fun ims' => .ok ⟨some str, is', ims'⟩)) := rfl
      rw [key, decodeElems_map _ _ decodeIssue_encode is,
        decodeElems_map _ _ decodeImprovement_encode ims]
      rfl

theorem decodeDiffResult_encode (x : DiffResult) :
    decodeDiffResult (encodeDiffResult x) = .ok x := by
  obtain ⟨ps⟩ := x
  have key : decodeDiffResult (encodeDiffResult ⟨ps⟩) =
      Except.bind (decodeElems decodeImprovementPoint (ps.map encodeImprovementPoint))
        (fun ps' => .ok ⟨ps'⟩) := rfl
  rw [key, decodeElems_map _ _ decodeImprovementPoint_encode ps]
  rfl

theorem noBannedKvs_append : ∀ a b : List (String × Json),
    noBannedKvs (a ++ b) = (noBannedKvs a && noBannedKvs b)
  | [], b => by simp [noBannedKvs]
  | (k, v) :: rest, b => by
      simp [noBannedKvs, noBannedKvs_append rest b, Bool.and_assoc]

theorem noBannedElems_strs : ∀ ns : List String,
    noBannedElems (ns.map Json.str) = true
  | [] => by simp [noBannedElems]
  | n :: ns => by simp [noBannedElems, noBanned, noBannedElems_strs ns]

theorem orderingOkKvs_append : ∀ a b : List (String × Json),
    orderingOkKvs (a ++ b) = (orderingOkKvs a && orderingOkKvs b)
  | [], b => by simp [orderingOkKvs]
  | (k, v) :: rest, b => by
      simp [orderingOkKvs, orderingOkKvs_append rest b, Bool.and_assoc]

theorem orderingOkElems_strs : ∀ ns : List String,
    orderingOkElems (ns.map Json.str) = true
  | [] => by simp [orderingOkElems]
  | n :: ns => by simp [orderingOkElems, orderingOk, orderingOkElems_strs ns]

theorem hasKey_append_right : ∀ (a b : List (String × Json)) (k : String),
    hasKey b k = true → hasKey (a ++ b) k = true
  | [], _, _, hb => hb
  | (k', v) :: rest, b, k, hb => by
      have ih := hasKey_append_right rest b k hb
      simp only [hasKey, List.cons_append, List.lookup]
      cases hkk : k == k' with
      | true => simp [hkk]
      | false => simpa [hkk, hasKey] using ih

mutual

theorem strip_noBanned : ∀ j j' : Json, stripUnsupported j = some j' → noBanned j' = true
  | .null, j', h => by
      simp only [stripUnsupported, Option.some.injEq] at h
      subst h
      simp [noBanned]
  | .bool b, j', h => by
      simp only [stripUnsupported, Option.some.injEq] at h
      subst h
      simp [noBanned]
  | .num n, j', h => by
      simp only [stripUnsupported, Option.some.injEq] at h
      subst h
      simp [noBanned]
  | .str s, j', h => by
      simp only [stripUnsupported, Option.some.injEq] at h
      subst h
      simp [noBanned]
  | .arr xs, j', h => by
      simp only [stripUnsupported] at h
      cases hys : stripElems xs with
      | none => rw [hys] at h; simp at h
      | some ys =>
          rw [hys] at h
          simp only [Option.bind_eq_bind, Option.some_bind, Option.some.injEq] at h
          subst h
          simpa [noBanned] using stripElems_noBanned xs ys hys
  | .obj kvs, j', h => by
      simp only [stripUnsupported] at h
      cases hc : stripKvs kvs with
      | none => rw [hc] at h; simp at h
      | some cleaned =>
          rw [hc] at h
          simp only [Option.bind_eq_bind, Option.some_bind] at h
          have hkvs := stripKvs_noBanned kvs cleaned hc
          simp only [injectOrdering] at h
          split at h
          · cases hpn : propertyNames cleaned with
            | none => rw [hpn] at h; simp at h
            | some names =>
                rw [hpn] at h
                simp only [Option.bind_eq_bind, Option.some_bind,
                  Option.some.injEq] at h
                subst h
                simp [noBanned, noBannedKvs_append, hkvs, noBannedKvs,
                  noBannedElems_strs, geminiUnsupportedKeys]
          · simp only [Option.some.injEq] at h
            subst h
            simpa [noBanned] using hkvs

theorem stripElems_noBanned : ∀ xs ys : List Json,
    stripElems xs = some ys → noBannedElems ys = true
  | [], ys, h => by
      simp only [stripElems, Option.some.injEq] at h
      subst h
      simp [noBannedElems]
  | x :: xs, ys, h => by
      simp only [stripElems] at h
      cases hy : stripUnsupported x with
      | none => rw [hy] at h; simp at h
      | some y =>
          rw [hy] at h
          cases hys : stripElems xs with
          | none => rw [hys] at h; simp at h
          | some ys' =>
              rw [hys] at h
              simp only [Option.bind_eq_bind, Option.some_bind,
                Option.some.injEq] at h
              subst h
              simp [noBannedElems, strip_noBanned x y hy,
                stripElems_noBanned xs ys' hys]

theorem stripKvs_noBanned : ∀ kvs cl : List (String × Json),
    stripKvs kvs = some cl → noBannedKvs cl = true
  | [], cl, h => by
      simp only [stripKvs, Option.some.injEq] at h
      subst h
      simp [noBannedKvs]
  | (k, v) :: rest, cl, h => by
      simp only [stripKvs] at h
      by_cases hb : geminiUnsupportedKeys.contains k
      · rw [if_pos hb] at h
        exact stripKvs_noBanned rest cl h
      · rw [if_neg hb] at h
        cases hv : stripUnsupported v with
        | none => rw [hv] at h; simp at h
        | some v' =>
            rw [hv] at h
            cases hr : stripKvs rest with
            | none => rw [hr] at h; simp at h
            | some rest' =>
                rw [hr] at h
                simp only [Option.bind_eq_bind, Option.some_bind,
                  Option.some.injEq] at h
                subst h
                simp [noBannedKvs, hb, strip_noBanned v v' hv,
                  stripKvs_noBanned rest rest' hr]
                intro hm
                exact hb (by simpa using hm)

end

mutual

theorem strip_orderingOk : ∀ j j' : Json, stripUnsupported j = some j' → orderingOk j' = true
  | .null, j', h => by
      simp only [stripUnsupported, Option.some.injEq] at h
      subst h
      simp [orderingOk]
  | .bool b, j', h => by
      simp only [stripUnsupported, Option.some.injEq] at h
      subst h
      simp [orderingOk]
  | .num n, j', h => by
      simp only [stripUnsupported, Option.some.injEq] at h
      subst h
      simp [orderingOk]
  | .str s, j', h => by
      simp only [stripUnsupported, Option.some.injEq] at h
      subst h
      simp [orderingOk]
  | .arr xs, j', h => by
      simp only [stripUnsupported] at h
      cases hys : stripElems xs with
      | none => rw [hys] at h; simp at h
      | some ys =>
          rw [hys] at h
          simp only [Option.bind_eq_bind, Option.some_bind, Option.some.injEq] at h
          subst h
          simpa [orderingOk] using stripElems_orderingOk xs ys hys
  | .obj kvs, j', h => by
      simp only [stripUnsupported] at h
      cases hc : stripKvs kvs with
      | none => rw [hc] at h; simp at h
      | some cleaned =>
          rw [hc] at h
          simp only [Option.bind_eq_bind, Option.some_bind] at h
          have hkvs := stripKvs_orderingOk kvs cleaned hc
          simp only [injectOrdering] at h
          by_cases hcond : (isObjectTyped cleaned && hasKey cleaned "properties" &&
              !(hasKey cleaned "propertyOrdering")) = true
          · rw [if_pos hcond] at h
            cases hpn : propertyNames cleaned with
            | none => rw [hpn] at h; simp at h
            | some names =>
                rw [hpn] at h
                simp only [Option.bind_eq_bind, Option.some_bind,
                  Option.some.injEq] at h
                subst h
                have hpo : hasKey
                    (cleaned ++ [("propertyOrdering", Json.arr (names.map .str))])
                    "propertyOrdering" = true := by
                  apply hasKey_append_right
                  simp [hasKey, List.lookup]
                simp [orderingOk, hpo, orderingOkKvs_append, hkvs, orderingOkKvs,
                  orderingOkElems_strs]
          · rw [if_neg hcond] at h
            simp only [Option.some.injEq] at h
            subst h
            have htop : (!(isObjectTyped cleaned && hasKey cleaned "properties") ||
                hasKey cleaned "propertyOrdering") = true := by
              cases hA : isObjectTyped cleaned <;>
                cases hB : hasKey cleaned "properties" <;>
                  cases hC : hasKey cleaned "propertyOrdering" <;> simp_all
            simp [orderingOk, hkvs]
            simpa using htop

theorem stripElems_orderingOk : ∀ xs ys : List Json,
    stripElems xs = some ys → orderingOkElems ys = true
  | [], ys, h => by
      simp only [stripElems, Option.some.injEq] at h
      subst h
      simp [orderingOkElems]
  | x :: xs, ys, h => by
      simp only [stripElems] at h
      cases hy : stripUnsupported x with
      | none => rw [hy] at h; simp at h
      | some y =>
          rw [hy] at h
          cases hys : stripElems xs with
          | none => rw [hys] at h; simp at h
          | some ys' =>
              rw [hys] at h
              simp only [Option.bind_eq_bind, Option.some_bind,
                Option.some.injEq] at h
              subst h
              simp [orderingOkElems, strip_orderingOk x y hy,
                stripElems_orderingOk xs ys' hys]

theorem stripKvs_orderingOk : ∀ kvs cl : List (String × Json),
    stripKvs kvs = some cl → orderingOkKvs cl = true
  | [], cl, h => by
      simp only [stripKvs, Option.some.injEq] at h
      subst h
      simp [orderingOkKvs]
  | (k, v) :: rest, cl, h => by
      simp only [stripKvs] at h
      by_cases hb : geminiUnsupportedKeys.contains k
      · rw [if_pos hb] at h
        exact stripKvs_orderingOk rest cl h
      · rw [if_neg hb] at h
        cases hv : stripUnsupported v with
        | none => rw [hv] at h; simp at h
        | some v' =>
            rw [hv] at h
            cases hr : stripKvs rest with
            | none => rw [hr] at h; simp at h
            | some rest' =>
                rw [hr] at h
                simp only [Option.bind_eq_bind, Option.some_bind,
                  Option.some.injEq] at h
                subst h
                simp [orderingOkKvs, strip_orderingOk v v' hv,
                  stripKvs_orderingOk rest rest' hr]

end

theorem stripKvs_preserves : ∀ kvs cleaned : List (String × Json),
    stripKvs kvs = some cleaned →
    List.Forall₂ (fun kv kv' => kv.1 = kv'.1 ∧ stripUnsupported kv.2 = some kv'.2)
      (kvs.filter fun kv => !(geminiUnsupportedKeys.contains kv.1)) cleaned
  | [], cleaned, h => by
      simp only [stripKvs, Option.some.injEq] at h
      subst h
      simp
  | (k, v) :: rest, cleaned, h => by
      simp only [stripKvs] at h
      by_cases hb : geminiUnsupportedKeys.contains k
      · rw [if_pos hb] at h
        have ih := stripKvs_preserves rest cleaned h
        have hmem : k ∈ geminiUnsupportedKeys := by simpa using hb
        simpa [List.filter_cons, hmem] using ih
      · rw [if_neg hb] at h
        cases hv : stripUnsupported v with
        | none => rw [hv] at h; simp at h
        | some v' =>
            rw [hv] at h
            cases hr : stripKvs rest with
            | none => rw [hr] at h; simp at h
            | some rest' =>
                rw [hr] at h
                simp only [Option.bind_eq_bind, Option.some_bind,
                  Option.some.injEq] at h
                subst h
                have ih := stripKvs_preserves rest rest' hr
                simp only [List.filter_cons]
                rw [if_pos (by simpa using hb)]
                exact List.Forall₂.cons ⟨rfl, hv⟩ ih

theorem injectOrdering_adds (cleaned pkvs : List (String × Json))
    (hA : isObjectTyped cleaned = true)
    (hprops : cleaned.lookup "properties" = some (.obj pkvs))
    (hC : hasKey cleaned "propertyOrdering" = false) :
    injectOrdering cleaned =
      some (.obj (cleaned ++
        [("propertyOrdering", .arr ((pkvs.map Prod.fst).map Json.str))])) := by
  have hB : hasKey cleaned "properties" = true := by simp [hasKey, hprops]
  have hpn : propertyNames cleaned = some (pkvs.map Prod.fst) := by
    simp [propertyNames, hprops]
  simp [injectOrdering, hA, hB, hC, hpn]

theorem injectOrdering_keeps (cleaned : List (String × Json))
    (hcond : (isObjectTyped cleaned && hasKey cleaned "properties" &&
      !(hasKey cleaned "propertyOrdering")) = false) :
    injectOrdering cleaned = some (.obj cleaned) := by
  simp [injectOrdering, hcond]

theorem stripUnsupported_obj (kvs : List (String × Json)) :
    stripUnsupported (.obj kvs) = (stripKvs kvs).bind injectOrdering := by
  simp only [stripUnsupported, Option.bind_eq_bind]

mutual

theorem safe_idem_val : ∀ v : PyVal, make_json_safe (make_json_safe v) = make_json_safe v
  | .pnone => by simp [make_json_safe]
  | .pbool _ => by simp [make_json_safe]
  | .pint _ => by simp [make_json_safe]
  | .pstr _ => by simp [make_json_safe]
  | .plist xs => by simp [make_json_safe, safe_idem_elems xs]
  | .ptuple xs => by simp [make_json_safe, safe_idem_elems xs]
  | .pset xs => by simp [make_json_safe, safe_idem_elems xs]
  | .pdict kvs => by simp [make_json_safe, safe_idem_entries kvs]
  | .pobj d => by simp [make_json_safe, safe_idem_val d]

theorem safe_idem_elems : ∀ xs : List PyVal, safeElems (safeElems xs) = safeElems xs
  | [] => by simp [safeElems]
  | x :: xs => by simp [safeElems, safe_idem_val x, safe_idem_elems xs]

theorem safe_idem_entries :
    ∀ kvs : List (String × PyVal), safeEntries (safeEntries kvs) = safeEntries kvs
  | [] => by simp [safeEntries]
  | (k, v) :: rest => by simp [safeEntries, safe_idem_val v, safe_idem_entries rest]

end

/-! ## Claim theorems -/

/-- C2: for a text of length `L` strictly above the budget `B` (12000 for
HTML, 8000 for CSS), `_clip_for_prompt` returns an output of length `B` plus
the marker length, whose first `0.7*B` characters (`headKeep B`, which
equals `int(B * 0.7)` exactly at both budgets) are the input's first
`0.7*B`, whose final `B - 0.7*B` characters are the input's last `B - 0.7*B`,
and whose inserted middle is the single marker stating the omitted count
`L - B`. -/
theorem truncation_marker_correctness (B : Nat) (style : String) (text : List Char)
    (hBs : (style = "html" ∧ B = MAX_HTML_CHARS) ∨ (style = "css" ∧ B = MAX_CSS_CHARS))
    (hL : B < text.length) :
    (clipForPrompt text B style).length = B + (marker style (text.length - B)).length ∧
    (clipForPrompt text B style).take (headKeep B) = text.take (headKeep B) ∧
    ((clipForPrompt text B style).drop (headKeep B)).take
        (marker style (text.length - B)).length = marker style (text.length - B) ∧
    (clipForPrompt text B style).drop
        ((clipForPrompt text B style).length - (B - headKeep B)) =
      text.drop (text.length - (B - headKeep B)) := by
  rcases hBs with ⟨_, hB⟩ | ⟨_, hB⟩ <;> subst hB <;>
    exact clip_core text _ style hL (by norm_num [headKeep, MAX_HTML_CHARS, MAX_CSS_CHARS])
      (by norm_num [headKeep, MAX_HTML_CHARS, MAX_CSS_CHARS])

/-- Witness for C2 at a concrete 12001-character HTML text. -/
theorem truncation_marker_correctness_witness :
    ((List.replicate 12001 'a').length > MAX_HTML_CHARS) ∧
    ((clipForPrompt (List.replicate 12001 'a') MAX_HTML_CHARS "html").length =
        MAX_HTML_CHARS +
          (marker "html" ((List.replicate 12001 'a').length - MAX_HTML_CHARS)).length ∧
      (clipForPrompt (List.replicate 12001 'a') MAX_HTML_CHARS "html").take
          (headKeep MAX_HTML_CHARS) =
        (List.replicate 12001 'a').take (headKeep MAX_HTML_CHARS) ∧
      ((clipForPrompt (List.replicate 12001 'a') MAX_HTML_CHARS "html").drop
            (headKeep MAX_HTML_CHARS)).take
          (marker "html" ((List.replicate 12001 'a').length - MAX_HTML_CHARS)).length =
        marker "html" ((List.replicate 12001 'a').length - MAX_HTML_CHARS) ∧
      (clipForPrompt (List.replicate 12001 'a') MAX_HTML_CHARS "html").drop
          ((clipForPrompt (List.replicate 12001 'a') MAX_HTML_CHARS "html").length -
            (MAX_HTML_CHARS - headKeep MAX_HTML_CHARS)) =
        (List.replicate 12001 'a').drop
          ((List.replicate 12001 'a').length -
            (MAX_HTML_CHARS - headKeep MAX_HTML_CHARS))) :=
  ⟨by rw [List.length_replicate]; norm_num [MAX_HTML_CHARS],
   truncation_marker_correctness MAX_HTML_CHARS "html" (List.replicate 12001 'a')
     (Or.inl ⟨rfl, rfl⟩) (by rw [List.length_replicate]; norm_num [MAX_HTML_CHARS])⟩

/-- C4 counterexample: `EFFORT_HINT` has entries for three — not two — of
the four effort levels used in configuration (`minimal`, `medium`, `high`;
only `low` is missing). -/
theorem effort_hint_covers_three_levels :
    effortLevels.filter (fun e => (EFFORT_HINT.lookup e).isSome) =
      ["minimal", "medium", "high"] ∧
    (effortLevels.filter (fun e => (EFFORT_HINT.lookup e).isSome)).length ≠ 2 := by
  constructor
  · rfl
  · decide

/-- C4 amended: `EFFORT_HINT` has entries for three of the four effort
levels (`minimal`, `medium`, `high`) and none for `low`, and
`_base_config` for the entry-less level `low` (with any verbosity the
verbosity table knows) escapes with an unhandled-key (`KeyError`) failure
instead of producing a config. -/
theorem effort_hint_gap (system verbosity : String)
    (hv : (VERBOSITY_HINT.lookup verbosity).isSome) :
    (EFFORT_HINT.lookup "minimal").isSome ∧
    (EFFORT_HINT.lookup "medium").isSome ∧
    (EFFORT_HINT.lookup "high").isSome ∧
    EFFORT_HINT.lookup "low" = none ∧
    gemini_base_config system verbosity "low" = .error (.keyError "low") := by
  refine ⟨by decide, by decide, by decide, rfl, ?_⟩
  rcases Option.isSome_iff_exists.mp hv with ⟨v, hv'⟩
  have h0 : EFFORT_HINT.lookup "low" = none := rfl
  simp only [gemini_base_config, dictGet, hv', h0]
  rfl

/-- Witness for C4's amended theorem at `verbosity = "medium"`. -/
theorem effort_hint_gap_witness :
    (VERBOSITY_HINT.lookup "medium").isSome ∧
    gemini_base_config "sys" "medium" "low" = .error (.keyError "low") :=
  ⟨by decide, (effort_hint_gap "sys" "medium" (by decide)).2.2.2.2⟩

/-- C8: an `Issue` payload containing the required `title` and `detail`
fields (with or without `evidence`) but omitting `severity` decodes
successfully with `severity == medium`. -/
theorem issue_severity_defaults_to_medium (t d : String) :
    decodeIssue (.obj [("title", .str t), ("detail", .str d)]) =
      .ok ⟨t, d, none, .medium⟩ ∧
    ∀ ev : String,
      decodeIssue (.obj [("title", .str t), ("detail", .str d),
        ("evidence", .str ev)]) = .ok ⟨t, d, some ev, .medium⟩ := by
  exact ⟨rfl, fun ev => rfl⟩

/-- C10: passing the empty string as the custom system prompt makes the
pipeline fall back to the default system prompt — the whole run equals the
run with no override, so both the adapter call and the returned artifacts
use `build_system_prompt`. -/
theorem empty_custom_prompt_falls_back
    (geminiAnalyze openaiAnalyze :
      String → String → String → String → String → String → AnalysisResult × PyVal)
    (vendor model html css_bundle extra_instruction image_bytes image_b64
      verbosity effort : String) :
    run_structured_pipeline geminiAnalyze openaiAnalyze vendor model html
        css_bundle extra_instruction image_bytes image_b64 verbosity effort
        (some "") =
      run_structured_pipeline geminiAnalyze openaiAnalyze vendor model html
        css_bundle extra_instruction image_bytes image_b64 verbosity effort
        none ∧
    (run_structured_pipeline geminiAnalyze openaiAnalyze vendor model html
        css_bundle extra_instruction image_bytes image_b64 verbosity effort
        (some "")).2.system_prompt = build_system_prompt := by
  exact ⟨rfl, rfl⟩

/-- C9: any vendor string other than `"Google Gemini"` — not only
`"OpenAI"` — dispatches to the OpenAI adapter (and returns its result and
artifacts) instead of rejecting the call. -/
theorem unknown_vendor_dispatches_to_openai
    (geminiAnalyze openaiAnalyze :
      String → String → String → String → String → String → AnalysisResult × PyVal)
    (vendor model html css_bundle extra_instruction image_bytes image_b64
      verbosity effort : String) (custom_system_prompt : Option String)
    (hv : vendor ≠ "Google Gemini") :
    run_structured_pipeline geminiAnalyze openaiAnalyze vendor model html
        css_bundle extra_instruction image_bytes image_b64 verbosity effort
        custom_system_prompt =
      ((openaiAnalyze model verbosity effort
          (resolveSystemPrompt custom_system_prompt)
          (build_analysis_prompt html css_bundle extra_instruction) image_b64).1,
       ⟨resolveSystemPrompt custom_system_prompt,
        build_analysis_prompt html css_bundle extra_instruction,
        encodeAnalysisResult (openaiAnalyze model verbosity effort
          (resolveSystemPrompt custom_system_prompt)
          (build_analysis_prompt html css_bundle extra_instruction) image_b64).1,
        make_json_safe (openaiAnalyze model verbosity effort
          (resolveSystemPrompt custom_system_prompt)
          (build_analysis_prompt html css_bundle extra_instruction) image_b64).2⟩) := by
  simp only [run_structured_pipeline, if_neg hv]

/-- C3: schema closure for the registry (Issue, Improvement, AnalysisResult
and the Diff family).  Any payload containing an undeclared field is
rejected: some undeclared key is detected (`extraKey` is some), every
detected key is an undeclared key of the payload, and each schema's decoder
then fails with a validation error whose path identifies that field.  And
decoding round-trips: for every valid instance `x` of each schema,
`decode (encode x) = ok x`. -/
theorem schema_closure :
    (∀ (F : List String) (kvs : List (String × Json)),
      (∃ kv ∈ kvs, kv.1 ∉ F) → (extraKey F kvs).isSome) ∧
    (∀ (F : List String) (kvs : List (String × Json)) (k : String),
      extraKey F kvs = some k → k ∉ F ∧ k ∈ kvs.map Prod.fst) ∧
    (∀ kvs k, extraKey issueFields kvs = some k →
      decodeIssue (.obj kvs) = .error ⟨[k], .extraForbidden⟩) ∧
    (∀ kvs k, extraKey improvementFields kvs = some k →
      decodeImprovement (.obj kvs) = .error ⟨[k], .extraForbidden⟩) ∧
    (∀ kvs k, extraKey variantOptionFields kvs = some k →
      decodeVariantOption (.obj kvs) = .error ⟨[k], .extraForbidden⟩) ∧
    (∀ kvs k, extraKey improvementPointFields kvs = some k →
      decodeImprovementPoint (.obj kvs) = .error ⟨[k], .extraForbidden⟩) ∧
    (∀ kvs k, extraKey analysisResultFields kvs = some k →
      decodeAnalysisResult (.obj kvs) = .error ⟨[k], .extraForbidden⟩) ∧
    (∀ kvs k, extraKey diffResultFields kvs = some k →
      decodeDiffResult (.obj kvs) = .error ⟨[k], .extraForbidden⟩) ∧
    (∀ x : Issue, decodeIssue (encodeIssue x) = .ok x) ∧
    (∀ x : Improvement, decodeImprovement (encodeImprovement x) = .ok x) ∧
    (∀ x : VariantOption, decodeVariantOption (encodeVariantOption x) = .ok x) ∧
    (∀ x : ImprovementPoint,
      decodeImprovementPoint (encodeImprovementPoint x) = .ok x) ∧
    (∀ x : AnalysisResult, decodeAnalysisResult (encodeAnalysisResult x) = .ok x) ∧
    (∀ x : DiffResult, decodeDiffResult (encodeDiffResult x) = .ok x) :=
  ⟨extraKey_exists, extraKey_sound, decodeIssue_extra, decodeImprovement_extra,
   decodeVariantOption_extra, decodeImprovementPoint_extra,
   decodeAnalysisResult_extra, decodeDiffResult_extra, decodeIssue_encode,
   decodeImprovement_encode, decodeVariantOption_encode,
   decodeImprovementPoint_encode, decodeAnalysisResult_encode,
   decodeDiffResult_encode⟩

/-- Witness for C3: an `AnalysisResult` payload with the undeclared field
`"bogus"` is rejected with path `["bogus"]`, and a concrete `Issue`
round-trips. -/
theorem schema_closure_witness :
    (extraKey analysisResultFields
        [("summary", Json.null), ("bogus", Json.bool true)]).isSome ∧
    decodeAnalysisResult (.obj [("summary", Json.null), ("bogus", Json.bool true)]) =
      .error ⟨["bogus"], .extraForbidden⟩ ∧
    decodeIssue (encodeIssue ⟨"t", "d", some "e", .high⟩) =
      .ok ⟨"t", "d", some "e", .high⟩ :=
  ⟨schema_closure.1 analysisResultFields
      [("summary", Json.null), ("bogus", Json.bool true)]
      ⟨("bogus", Json.bool true), by simp, by decide⟩,
   schema_closure.2.2.2.2.2.2.1
      [("summary", Json.null), ("bogus", Json.bool true)] "bogus" rfl,
   schema_closure.2.2.2.2.2.2.2.2.1 ⟨"t", "d", some "e", .high⟩⟩

/-- C6 counterexample: the claim says only `"additionalProperties"` and
`"patternProperties"` are removed and "all other keys and values are
preserved", but `_strip_unsupported_keys` also removes
`"unevaluatedProperties"`: a one-entry dict holding that key comes back
empty, so a key outside the claim's stripped set is not preserved. -/
theorem strip_drops_unevaluated_properties :
    stripUnsupported (.obj [("unevaluatedProperties", Json.bool false)]) =
      some (.obj []) ∧
    ("unevaluatedProperties" : String) ∉ ["additionalProperties", "patternProperties"] := by
  constructor
  · simp [stripUnsupported, stripKvs, injectOrdering, isObjectTyped, hasKey,
      propertyNames, geminiUnsupportedKeys, List.lookup]
  · decide

/-- C6 amended: whenever `_strip_unsupported_keys` returns (it raises only
on a non-dict `"properties"` value), its output contains, at every nesting
depth, none of the three vendor-unsupported keywords
(`additionalProperties`, `unevaluatedProperties`, `patternProperties`);
every object-typed node of the output carries a `propertyOrdering` entry;
the surviving entries of a dict are exactly its entries outside the
stripped set, in order, with their values recursively stripped; and an
object-typed node with properties that lacked an ordering gains one equal
to the ordered list of its property names, while any other dict is returned
as its cleaned entries. -/
theorem strip_unsupported_spec :
    (∀ j j' : Json, stripUnsupported j = some j' → noBanned j' = true) ∧
    (∀ j j' : Json, stripUnsupported j = some j' → orderingOk j' = true) ∧
    (∀ kvs cleaned : List (String × Json), stripKvs kvs = some cleaned →
      List.Forall₂ (fun kv kv' => kv.1 = kv'.1 ∧ stripUnsupported kv.2 = some kv'.2)
        (kvs.filter fun kv => !(geminiUnsupportedKeys.contains kv.1)) cleaned) ∧
    (∀ cleaned pkvs : List (String × Json), isObjectTyped cleaned = true →
      cleaned.lookup "properties" = some (.obj pkvs) →
      hasKey cleaned "propertyOrdering" = false →
      injectOrdering cleaned =
        some (.obj (cleaned ++
          [("propertyOrdering", .arr ((pkvs.map Prod.fst).map Json.str))]))) ∧
    (∀ cleaned : List (String × Json),
      (isObjectTyped cleaned && hasKey cleaned "properties" &&
        !(hasKey cleaned "propertyOrdering")) = false →
      injectOrdering cleaned = some (.obj cleaned)) ∧
    (∀ kvs : List (String × Json),
      stripUnsupported (.obj kvs) = (stripKvs kvs).bind injectOrdering) :=
  ⟨strip_noBanned, strip_orderingOk, stripKvs_preserves, injectOrdering_adds,
   injectOrdering_keeps, stripUnsupported_obj⟩

/-- Witness for C6's amended theorem at a concrete two-level schema with an
`additionalProperties` key to strip and an ordering to inject. -/
theorem strip_unsupported_spec_witness :
    noBanned (.obj [("type", .str "object"),
      ("properties", .obj [("a", .obj [("type", .str "string")])]),
      ("propertyOrdering", .arr [.str "a"])]) = true ∧
    orderingOk (.obj [("type", .str "object"),
      ("properties", .obj [("a", .obj [("type", .str "string")])]),
      ("propertyOrdering", .arr [.str "a"])]) = true :=
  ⟨strip_unsupported_spec.1
      (.obj [("type", .str "object"),
        ("properties", .obj [("a", .obj [("type", .str "string"),
          ("additionalProperties", .bool false)])])])
      (.obj [("type", .str "object"),
        ("properties", .obj [("a", .obj [("type", .str "string")])]),
        ("propertyOrdering", .arr [.str "a"])])
      (by simp [stripUnsupported, stripKvs, injectOrdering, isObjectTyped,
        hasKey, propertyNames, geminiUnsupportedKeys, List.lookup]),
   strip_unsupported_spec.2.1
      (.obj [("type", .str "object"),
        ("properties", .obj [("a", .obj [("type", .str "string"),
          ("additionalProperties", .bool false)])])])
      (.obj [("type", .str "object"),
        ("properties", .obj [("a", .obj [("type", .str "string")])]),
        ("propertyOrdering", .arr [.str "a"])])
      (by simp [stripUnsupported, stripKvs, injectOrdering, isObjectTyped,
        hasKey, propertyNames, geminiUnsupportedKeys, List.lookup])⟩

/-- C7: `make_json_safe` is idempotent — applying it twice to any value of
the modelled universe (JSON primitives, nested mappings and sequences,
structured objects exposing a dict-like extraction method) equals applying
it once. -/
theorem make_json_safe_idempotent (v : PyVal) :
    make_json_safe (make_json_safe v) = make_json_safe v :=
  safe_idem_val v

/-- C5: whenever the Gemini `_call` obtains no parsed payload, it raises
`MissingPayload` whose message is the missing-payload message for the
collected finish-reason — which, for a truthy finish-reason, carries the
reason verbatim plus a follow-up note that is non-empty exactly when the
reason indicates truncation (`MAX_TOKENS`/`MAXTOKENS`) or safety filtering
(`SAFETY`) — and whose diagnostic context carries the raw text
(`raw_text`) and the candidate texts, usage telemetry and finish-reason
(`response_debug`). -/
theorem gemini_missing_payload_details {α : Type}
    (jsonLoads : String → Option Json) (validate : Json → Except DecodeErr α)
    (schemaName stage : String) (response : GeminiResponse)
    (h : geminiParsed jsonLoads response = none) :
    geminiCall jsonLoads validate schemaName stage (.ok response) =
      .error (.structuredErr
        ⟨.MissingPayload,
         geminiMissingMsg stage (geminiFinishReason response),
         geminiRawText response, none,
         some (geminiMissingDebug (geminiCandidateTexts response)
           response.usage_metadata (geminiFinishReason response))⟩) ∧
    (∀ r, geminiFinishReason response = some r → r ≠ "" →
      geminiMissingMsg stage (geminiFinishReason response) =
        "Gemini structured output missing parsed payload for " ++ stage ++
          " (finish_reason: " ++ r ++ ")" ++ reasonNote r) ∧
    (∀ r : String, reasonNote r ≠ "" ↔
      (r.toUpper = "MAX_TOKENS" ∨ r.toUpper = "MAXTOKENS" ∨ r.toUpper = "SAFETY")) := by
  refine ⟨?_, ?_, ?_⟩
  · simp only [geminiCall, h]
  · intro r hr hne
    rw [hr]
    simp only [geminiMissingMsg]
    rw [if_pos hne]
  · intro r
    simp only [reasonNote]
    by_cases h1 : r.toUpper = "MAX_TOKENS" ∨ r.toUpper = "MAXTOKENS"
    · rw [if_pos h1]
      constructor
      · intro _
        rcases h1 with h1 | h1
        · exact Or.inl h1
        · exact Or.inr (Or.inl h1)
      · intro _
        decide
    · rw [if_neg h1]
      by_cases h2 : r.toUpper = "SAFETY"
      · rw [if_pos h2]
        constructor
        · intro _
          exact Or.inr (Or.inr h2)
        · intro _
          decide
      · rw [if_neg h2]
        constructor
        · intro hcon
          exact absurd rfl hcon
        · intro hor
          rcases hor with h | h | h
          · exact absurd (Or.inl h) h1
          · exact absurd (Or.inr h) h1
          · exact absurd h h2

/-- Witness for C5: a stubbed response whose finish-reason is `MAX_TOKENS`
and which contains no parsable text. -/
theorem gemini_missing_payload_details_witness :
    (geminiCall (fun _ => none) decodeAnalysisResult "AnalysisResult" "analysis"
        (.ok ⟨[⟨none, some "MAX_TOKENS"⟩], none, .pnone⟩) =
      .error (.structuredErr
        ⟨.MissingPayload,
         geminiMissingMsg "analysis"
           (geminiFinishReason ⟨[⟨none, some "MAX_TOKENS"⟩], none, .pnone⟩),
         geminiRawText ⟨[⟨none, some "MAX_TOKENS"⟩], none, .pnone⟩, none,
         some (geminiMissingDebug
           (geminiCandidateTexts ⟨[⟨none, some "MAX_TOKENS"⟩], none, .pnone⟩)
           (GeminiResponse.usage_metadata ⟨[⟨none, some "MAX_TOKENS"⟩], none, .pnone⟩)
           (geminiFinishReason ⟨[⟨none, some "MAX_TOKENS"⟩], none, .pnone⟩))⟩)) ∧
    (reasonNote "MAX_TOKENS" ≠ "" ↔
      (String.toUpper "MAX_TOKENS" = "MAX_TOKENS" ∨
        String.toUpper "MAX_TOKENS" = "MAXTOKENS" ∨
        String.toUpper "MAX_TOKENS" = "SAFETY")) := by
  have h := gemini_missing_payload_details (fun _ => none) decodeAnalysisResult
    "AnalysisResult" "analysis" ⟨[⟨none, some "MAX_TOKENS"⟩], none, .pnone⟩ rfl
  exact ⟨h.1, h.2.2 "MAX_TOKENS"⟩

/-- C1 counterexample: the OpenAI `_call` reads `completion.choices[0]`, so
a response shape with an empty choices list escapes as an unclassified
Python `IndexError`, not as a `StructuredCallError` of any of the three
kinds — refuting "never raises an adapter-specific/unclassified error for
any response shape". -/
theorem openai_empty_choices_unclassified :
    openaiCall (fun _ : AnalysisResult => PyVal.pnone) "analysis"
        (.ok ⟨[], .pnone⟩) =
      .error (.unclassified "IndexError: list index out of range") := rfl

/-- C1 amended: for both adapters every failure is the single reported
error type in one of the three kinds — transport failure raises
`CallFailed`; no extractable/parsable payload raises `MissingPayload`
(invalid JSON with no successful parse included, since a decode failure
only leaves the payload unset); Gemini text that parsed but violates the
schema raises `ValidationFailed` — and the operation never raises an
unclassified error, except that the OpenAI adapter requires the response
to have at least one choice (an empty choices list raises an unclassified
`IndexError`). -/
theorem uniform_failure_surface {α : Type} :
    (∀ (jsonLoads : String → Option Json) (validate : Json → Except DecodeErr α)
        (schemaName stage exc : String),
      geminiCall jsonLoads validate schemaName stage (.error exc) =
        .error (.structuredErr ⟨.CallFailed,
          "Gemini API call failed at " ++ stage ++ ": " ++ exc,
          none, none, none⟩)) ∧
    (∀ (jsonLoads : String → Option Json) (validate : Json → Except DecodeErr α)
        (schemaName stage : String) (response : GeminiResponse),
      geminiParsed jsonLoads response = none →
      ∃ e, geminiCall jsonLoads validate schemaName stage (.ok response) =
          .error (.structuredErr e) ∧ e.kind = .MissingPayload) ∧
    (∀ (jsonLoads : String → Option Json) (validate : Json → Except DecodeErr α)
        (schemaName stage : String) (response : GeminiResponse) (j : Json)
        (verr : DecodeErr),
      geminiParsed jsonLoads response = some j → validate j = .error verr →
      ∃ e, geminiCall jsonLoads validate schemaName stage (.ok response) =
          .error (.structuredErr e) ∧ e.kind = .ValidationFailed) ∧
    (∀ (jsonLoads : String → Option Json) (validate : Json → Except DecodeErr α)
        (schemaName stage : String) (callResult : Except String GeminiResponse),
      (∃ out, geminiCall jsonLoads validate schemaName stage callResult = .ok out) ∨
      (∃ e, geminiCall jsonLoads validate schemaName stage callResult =
          .error (.structuredErr e))) ∧
    (∀ (dumpParsed : α → PyVal) (stage exc : String),
      openaiCall dumpParsed stage (.error exc) =
        .error (.structuredErr ⟨.CallFailed,
          "OpenAI API call failed at " ++ stage ++ ": " ++ exc,
          none, none, none⟩)) ∧
    (∀ (dumpParsed : α → PyVal) (stage : String) (choice : OpenAIChoice α)
        (rest : List (OpenAIChoice α)) (dump : PyVal),
      choice.message.parsed = none →
      ∃ e, openaiCall dumpParsed stage (.ok ⟨choice :: rest, dump⟩) =
          .error (.structuredErr e) ∧ e.kind = .MissingPayload) ∧
    (∀ (dumpParsed : α → PyVal) (stage : String) (choice : OpenAIChoice α)
        (rest : List (OpenAIChoice α)) (dump : PyVal) (p : α),
      choice.message.parsed = some p →
      openaiCall dumpParsed stage (.ok ⟨choice :: rest, dump⟩) =
        .ok (p, ⟨choice.message.content, make_json_safe (dumpParsed p),
          make_json_safe dump⟩)) ∧
    (∀ (dumpParsed : α → PyVal) (stage : String)
        (callResult : Except String (OpenAICompletion α)),
      (∀ completion, callResult = Except.ok completion → completion.choices ≠ []) →
      (∃ out, openaiCall dumpParsed stage callResult = .ok out) ∨
      (∃ e, openaiCall dumpParsed stage callResult = .error (.structuredErr e))) := by
  refine ⟨?_, ?_, ?_, ?_, ?_, ?_, ?_, ?_⟩
  · intro jsonLoads validate schemaName stage exc
    rfl
  · intro jsonLoads validate schemaName stage response h
    have heq : geminiCall jsonLoads validate schemaName stage (.ok response) =
        .error (.structuredErr
          ⟨.MissingPayload, geminiMissingMsg stage (geminiFinishReason response),
           geminiRawText response, none,
           some (geminiMissingDebug (geminiCandidateTexts response)
             response.usage_metadata (geminiFinishReason response))⟩) := by
      simp only [geminiCall, h]
    exact ⟨_, heq, rfl⟩
  · intro jsonLoads validate schemaName stage response j verr hj hv
    have heq : geminiCall jsonLoads validate schemaName stage (.ok response) =
        .error (.structuredErr
          ⟨.ValidationFailed,
           "Gemini structured output failed validation for " ++ schemaName ++
             ": " ++ decodeErrText verr,
           geminiRawText response, some j,
           some (geminiValidationDebug (geminiCandidateTexts response)
             response.usage_metadata)⟩) := by
      simp only [geminiCall, hj, hv]
    exact ⟨_, heq, rfl⟩
  · intro jsonLoads validate schemaName stage callResult
    cases callResult with
    | error exc => exact Or.inr ⟨_, rfl⟩
    | ok response =>
      cases hp : geminiParsed jsonLoads response with
      | none => exact Or.inr ⟨_, by simp only [geminiCall, hp]; rfl⟩
      | some j =>
        cases hv : validate j with
        | error verr => exact Or.inr ⟨_, by simp only [geminiCall, hp, hv]; rfl⟩
        | ok a => exact Or.inl ⟨_, by simp only [geminiCall, hp, hv]; rfl⟩
  · intro dumpParsed stage exc
    rfl
  · intro dumpParsed stage choice rest dump h
    have heq : openaiCall dumpParsed stage (.ok ⟨choice :: rest, dump⟩) =
        .error (.structuredErr
          ⟨.MissingPayload,
           "OpenAI structured output missing parsed payload for " ++ stage,
           choice.message.content, none,
           some (make_json_safe dump)⟩) := by
      simp only [openaiCall, h]
    exact ⟨_, heq, rfl⟩
  · intro dumpParsed stage choice rest dump p h
    simp only [openaiCall, h]
  · intro dumpParsed stage callResult hne
    cases callResult with
    | error exc => exact Or.inr ⟨_, rfl⟩
    | ok completion =>
      cases hcs : completion.choices with
      | nil => exact absurd hcs (hne completion rfl)
      | cons choice rest =>
        cases hp : choice.message.parsed with
        | none => exact Or.inr ⟨_, by simp only [openaiCall, hcs, hp]; rfl⟩
        | some p => exact Or.inl ⟨_, by simp only [openaiCall, hcs, hp]; rfl⟩

/-- Witness for C1's amended theorem: Gemini missing-payload at a stubbed
empty response and OpenAI missing-payload at a stubbed parse-less choice. -/
theorem uniform_failure_surface_witness :
    (∃ e, geminiCall (fun _ => none) decodeAnalysisResult "AnalysisResult"
        "analysis" (.ok ⟨[], none, .pnone⟩) = .error (.structuredErr e) ∧
        e.kind = .MissingPayload) ∧
    (∃ e, openaiCall (fun _ : AnalysisResult => PyVal.pnone) "analysis"
        (.ok ⟨[⟨⟨none, none⟩⟩], .pnone⟩) = .error (.structuredErr e) ∧
        e.kind = .MissingPayload) := by
  have h := uniform_failure_surface (α := AnalysisResult)
  exact ⟨h.2.1 (fun _ => none) decodeAnalysisResult "AnalysisResult" "analysis"
      ⟨[], none, .pnone⟩ rfl,
    h.2.2.2.2.2.1 (fun _ => PyVal.pnone) "analysis" ⟨⟨none, none⟩⟩ [] .pnone rfl⟩

/-- Witness for C9 at the unrecognized vendor name `"Anthropic"`. -/
theorem unknown_vendor_dispatches_to_openai_witness :
    run_structured_pipeline (fun _ _ _ _ _ _ => (⟨none, [], []⟩, .pnone))
        (fun _ _ _ _ _ _ => (⟨none, [], []⟩, .pnone)) "Anthropic" "m" "h" "c"
        "e" "ib" "i64" "v" "ef" none =
      ((((fun (_ _ _ _ _ _ : String) =>
            ((⟨none, [], []⟩ : AnalysisResult), PyVal.pnone)) "m" "v" "ef"
          (resolveSystemPrompt none) (build_analysis_prompt "h" "c" "e") "i64").1),
       ⟨resolveSystemPrompt none, build_analysis_prompt "h" "c" "e",
        encodeAnalysisResult ((fun (_ _ _ _ _ _ : String) =>
            ((⟨none, [], []⟩ : AnalysisResult), PyVal.pnone)) "m" "v" "ef"
          (resolveSystemPrompt none) (build_analysis_prompt "h" "c" "e") "i64").1,
        make_json_safe ((fun (_ _ _ _ _ _ : String) =>
            ((⟨none, [], []⟩ : AnalysisResult), PyVal.pnone)) "m" "v" "ef"
          (resolveSystemPrompt none) (build_analysis_prompt "h" "c" "e") "i64").2⟩) :=
  unknown_vendor_dispatches_to_openai
    (fun _ _ _ _ _ _ => (⟨none, [], []⟩, .pnone))
    (fun _ _ _ _ _ _ => (⟨none, [], []⟩, .pnone)) "Anthropic" "m" "h" "c" "e"
    "ib" "i64" "v" "ef" none (by decide)

end LpAnalyzer
